import Mathlib

/-!
Verification of the NanoPlot driver script (nanoplot/NanoPlot.py) against its
natural-language specification.  The development shallowly embeds the data
model (a pandas-like record table), the filter pipeline `filter_data`
(lines 232-288), the plot dispatcher `make_plots` (lines 291-418), the
post-load control flow of `main` (lines 61-86) and the statistics-table
rendering of `make_report` (lines 448-466).  External collaborators
(nanomath.remove_length_outliers, numpy log10, pandas DataFrame.sample) are
abstracted as parameters of an `Ext` record.
-/

namespace NanoPlot

/-- Cell value of the record table: pandas columns hold numbers
(lengths, quals, mapQ, ...) or strings (barcode). -/
inductive Value where
  | num (q : ℚ)
  | str (s : String)
deriving DecidableEq, Repr

/-- Row of the record table: an association list from column name to value. -/
abbrev Row := List (String × Value)

/-- Look up a column value in a row. -/
def rowGet (r : Row) (c : String) : Option Value :=
  (r.find? (fun p => p.1 = c)).map Prod.snd

/-- Numeric view on a row cell. -/
def rowGetNum (r : Row) (c : String) : Option ℚ :=
  match rowGet r c with
  | some (Value.num q) => some q
  | _ => none

/-- String view on a row cell. -/
def rowGetStr (r : Row) (c : String) : Option String :=
  match rowGet r c with
  | some (Value.str s) => some s
  | _ => none

/-- Column assignment on a row: replace an existing binding, else append. -/
def rowSet (r : Row) (c : String) (v : Value) : Row :=
  if r.any (fun p => p.1 = c) then
    r.map (fun p => if p.1 = c then (c, v) else p)
  else
    r ++ [(c, v)]

/-- The record table: a pandas DataFrame, modelled as its list of column
names together with its rows. -/
structure Table where
  cols : List String
  rows : List Row
deriving DecidableEq, Repr

/-- Values of a string column, in row order (used for the barcode column). -/
def Table.columnStr (t : Table) (c : String) : List String :=
  t.rows.filterMap (fun r => rowGetStr r c)

/-- Command-line options consumed by filter_data.  `maxlength`, `minqual`
and `downsample` carry `Option Int` because argparse leaves them at None
when absent. -/
structure Settings where
  alength : Bool
  bam : Bool
  drop_outliers : Bool
  maxlength : Option Int
  minqual : Option Int
  loglength : Bool
  downsample : Option Int
deriving DecidableEq, Repr

/-- Python truthiness of an optional integer option: None and 0 are falsy,
every other integer is truthy. -/
def truthy : Option Int → Bool
  | none => false
  | some v => v != 0

/-- External collaborators used by filter_data, abstracted:
`removeOutliers` models nanomath.remove_length_outliers (pointer, table);
`log10` models numpy log10 applied to one cell of the selected length
column; `sampleSel` models the random index choice made by pandas
DataFrame.sample, given the requested size and the number of rows. -/
structure Ext where
  removeOutliers : String → Table → Table
  log10 : Option Value → Value
  sampleSel : Int → Nat → List Nat

/-- Fields the filter pipeline stores back into the settings dict:
settings["lengths_pointer"], settings["logBool"] and the filename tag
settings["length_prefix"]. -/
structure Derived where
  lengthsPointer : String
  logBool : Bool
  lengthPre : String
deriving DecidableEq, Repr

/-- Shallow embedding of filter_data (NanoPlot.py lines 232-288), written
as one sequential let-chain mirroring the source:
length-column selection, outlier removal, max-length cutoff
(keep rows with selected length strictly below the threshold), minimum
quality cutoff (keep rows with quals strictly above the threshold, no
filename token), log transform (new column log_<pointer>, pointer
redirected, logBool set), downsampling (sample min(requested, available)
rows).  Returns the filtered table and the derived settings fields. -/
def filter_data (ext : Ext) (cfg : Settings) (datadf : Table) : Table × Derived :=
  let preList0 : List String := []
  let sel1 :=
    if cfg.alength && cfg.bam then ("aligned_lengths", preList0 ++ ["Aligned_"])
    else ("lengths", preList0)
  let pointer1 := sel1.1
  let preList1 := sel1.2
  let sel2 :=
    if cfg.drop_outliers then
      (ext.removeOutliers pointer1 datadf, preList1 ++ ["OutliersRemoved_"])
    else (datadf, preList1)
  let df2 := sel2.1
  let preList2 := sel2.2
  let sel3 :=
    if truthy cfg.maxlength then
      (Table.mk df2.cols
        (df2.rows.filter
          (fun r => (rowGetNum r pointer1).any
            (fun v => decide (v < ((cfg.maxlength.getD 0 : Int) : ℚ))))),
       preList2 ++ ["MaxLength-" ++ toString (cfg.maxlength.getD 0) ++ "_"])
    else (df2, preList2)
  let df3 := sel3.1
  let preList3 := sel3.2
  let df4 :=
    if truthy cfg.minqual then
      Table.mk df3.cols
        (df3.rows.filter
          (fun r => (rowGetNum r "quals").any
            (fun v => decide (((cfg.minqual.getD 0 : Int) : ℚ) < v))))
    else df3
  let sel5 :=
    if cfg.loglength then
      let newcol := "log_" ++ pointer1
      (Table.mk
        (if df4.cols.contains newcol then df4.cols else df4.cols ++ [newcol])
        (df4.rows.map (fun r => rowSet r newcol (ext.log10 (rowGet r pointer1)))),
       newcol, preList3 ++ ["Log_"], true)
    else (df4, pointer1, preList3, false)
  let df5 := sel5.1
  let pointer5 := sel5.2.1
  let preList5 := sel5.2.2.1
  let logBool5 := sel5.2.2.2
  let sel6 :=
    if truthy cfg.downsample then
      let newSize := min (cfg.downsample.getD 0) (df5.rows.length : Int)
      (Table.mk df5.cols
        ((ext.sampleSel newSize df5.rows.length).filterMap (fun i => df5.rows[i]?)),
       preList5 ++ ["Downsampled_"])
    else (df5, preList5)
  (sel6.1, Derived.mk pointer5 logBool5 (String.join sel6.2))

/-- State threaded through the six filter steps: the table, the ordered
list of filename tokens, the selected length column and the log flag. -/
structure FState where
  df : Table
  preList : List String
  pointer : String
  logBool : Bool
deriving DecidableEq, Repr

/-- Step 1 of filter_data: length-column selection (lines 243-249). -/
def stepALength (cfg : Settings) (st : FState) : FState :=
  if cfg.alength && cfg.bam then
    { st with pointer := "aligned_lengths", preList := st.preList ++ ["Aligned_"] }
  else
    { st with pointer := "lengths" }

/-- Step 2 of filter_data: outlier removal (lines 250-256). -/
def stepOutliers (ext : Ext) (cfg : Settings) (st : FState) : FState :=
  if cfg.drop_outliers then
    { st with df := ext.removeOutliers st.pointer st.df,
              preList := st.preList ++ ["OutliersRemoved_"] }
  else st

/-- Step 3 of filter_data: max-length cutoff (lines 257-264). -/
def stepMaxLength (cfg : Settings) (st : FState) : FState :=
  if truthy cfg.maxlength then
    { st with
        df := Table.mk st.df.cols
          (st.df.rows.filter
            (fun r => (rowGetNum r st.pointer).any
              (fun v => decide (v < ((cfg.maxlength.getD 0 : Int) : ℚ))))),
        preList := st.preList ++ ["MaxLength-" ++ toString (cfg.maxlength.getD 0) ++ "_"] }
  else st

/-- Step 4 of filter_data: minimum quality cutoff (lines 265-271).
No filename token is appended by this step. -/
def stepMinQual (cfg : Settings) (st : FState) : FState :=
  if truthy cfg.minqual then
    { st with
        df := Table.mk st.df.cols
          (st.df.rows.filter
            (fun r => (rowGetNum r "quals").any
              (fun v => decide (((cfg.minqual.getD 0 : Int) : ℚ) < v)))) }
  else st

/-- Step 5 of filter_data: log transform (lines 272-279). -/
def stepLog (ext : Ext) (cfg : Settings) (st : FState) : FState :=
  if cfg.loglength then
    let newcol := "log_" ++ st.pointer
    { df := Table.mk
        (if st.df.cols.contains newcol then st.df.cols else st.df.cols ++ [newcol])
        (st.df.rows.map (fun r => rowSet r newcol (ext.log10 (rowGet r st.pointer)))),
      preList := st.preList ++ ["Log_"],
      pointer := newcol,
      logBool := true }
  else { st with logBool := false }

/-- Step 6 of filter_data: downsampling (lines 280-285). -/
def stepDownsample (ext : Ext) (cfg : Settings) (st : FState) : FState :=
  if truthy cfg.downsample then
    let newSize := min (cfg.downsample.getD 0) (st.df.rows.length : Int)
    { st with
        df := Table.mk st.df.cols
          ((ext.sampleSel newSize st.df.rows.length).filterMap (fun i => st.df.rows[i]?)),
        preList := st.preList ++ ["Downsampled_"] }
  else st

/-- Packaging of the final filter state into the return value of
filter_data. -/
def finalizeF (st : FState) : Table × Derived :=
  (st.df, Derived.mk st.pointer st.logBool (String.join st.preList))

/-- Initial filter state for a loaded table. -/
def initF (datadf : Table) : FState :=
  FState.mk datadf [] "" false

/-- Settings fields read by the plot dispatcher: settings["path"] and the
three fields written by filter_data. -/
structure PlotSettings where
  path : String
  lengthsPointer : String
  logBool : Bool
  lengthPre : String
deriving DecidableEq, Repr

/-- One call made by make_plots to the nanoplotter rendering collaborator,
identified by its kind, the columns plotted and the output path. -/
inductive PlotCall where
  | lengthPlots (path : String)
  | scatter (xcol ycol : String) (path : String) (log : Bool)
  | spatialHeatmap (path : String)
  | timePlots (path : String)
deriving DecidableEq, Repr

/-- Shallow embedding of the dispatch logic of make_plots (NanoPlot.py
lines 291-418): the ordered sequence of rendering calls, each guarded by
column presence exactly as in the source.  Note that line 361 of the
source tests membership of the literal string "maqpQ" while the guarded
branch body reads column "mapQ"; the embedding reproduces this. -/
def make_plots (datadf : Table) (s : PlotSettings) : List PlotCall :=
  [PlotCall.lengthPlots s.path]
  ++ (if datadf.cols.contains "quals" then
        [PlotCall.scatter s.lengthsPointer "quals"
          (s.path ++ s.lengthPre ++ "LengthvsQualityScatterPlot") s.logBool]
      else [])
  ++ (if datadf.cols.contains "channelIDs" then
        [PlotCall.spatialHeatmap (s.path ++ "ActivityMap_ReadsPerChannel")]
      else [])
  ++ (if datadf.cols.contains "start_time" then
        [PlotCall.timePlots s.path]
      else [])
  ++ (if datadf.cols.contains "aligned_lengths" && datadf.cols.contains "lengths" then
        [PlotCall.scatter "aligned_lengths" "lengths"
          (s.path ++ "AlignedReadlengthvsSequencedReadLength") false]
      else [])
  ++ (if datadf.cols.contains "maqpQ" then
        [PlotCall.scatter "mapQ" "quals"
          (s.path ++ "MappingQualityvsAverageBaseQuality") false,
         PlotCall.scatter s.lengthsPointer "mapQ"
          (s.path ++ s.lengthPre ++ "MappingQualityvsReadLength") s.logBool]
      else [])
  ++ (if datadf.cols.contains "percentIdentity" then
        [PlotCall.scatter "percentIdentity" "aligned_quals"
          (s.path ++ "PercentIdentityvsAverageBaseQuality") false,
         PlotCall.scatter s.lengthsPointer "percentIdentity"
          (s.path ++ "PercentIdentityvsAlignedReadLength") s.logBool]
      else [])

/-- Recognizer for the two scatter artifacts of the mapQ dispatch row:
mapQ against average basecall quality, and read length against mapQ. -/
def isMapqScatter : PlotCall → Bool
  | PlotCall.scatter xcol ycol _ _ => xcol = "mapQ" || ycol = "mapQ"
  | _ => false

/-- Sequential execution of the rendering calls under a fallible renderer.
The source has no per-plot exception guard: each call is made in order and
an exception propagates out of make_plots, so execution is the short-
circuiting fold over the call list. -/
def runCalls (render : PlotCall → Except String (List String)) :
    List PlotCall → Except String (List String)
  | [] => Except.ok []
  | c :: rest =>
    match render c with
    | Except.error e => Except.error e
    | Except.ok arts =>
      match runCalls render rest with
      | Except.error e => Except.error e
      | Except.ok more => Except.ok (arts ++ more)

/-- make_plots run under a fallible renderer: the calls of the dispatch
logic executed in order, with exceptions propagating (source lines
291-418 together with the top-level handler of main, lines 88-94, which
logs and re-raises). -/
def make_plotsE (render : PlotCall → Except String (List String))
    (datadf : Table) (s : PlotSettings) : Except String (List String) :=
  runCalls render (make_plots datadf s)

/-- Observable events of the post-load control flow of main
(lines 61-86): statistics-file writes, invocations of the filter
pipeline, and per-table invocations of the plot dispatcher. -/
inductive Event where
  | writeStats (file : String) (groups : List String)
  | filterRun
  | plotRun (barcode : String) (path : String)
deriving DecidableEq, Repr

/-- First-occurrence deduplication, the order pandas Series.unique uses. -/
def uniqueFirst (l : List String) : List String :=
  l.foldl (fun acc x => if acc.contains x then acc else acc ++ [x]) []

/-- Model of os.path.join for a directory and a relative name. -/
def pathJoin (a b : String) : String := a ++ "/" ++ b

/-- Options of main that the post-load control flow reads: the output
directory, the file-name front tag (args.prefix), the barcoded flag and
the filter options. -/
structure MainCfg where
  outdir : String
  filePre : String
  barcoded : Bool
  fcfg : Settings
deriving Repr

/-- Shallow embedding of the post-load control flow of main (NanoPlot.py
lines 61-86) as an event trace: write NanoStats.txt, run filter_data once,
then either (barcoded) write the aggregate NanoStats_barcoded.txt grouped
by the distinct barcodes of the filtered table and dispatch plots once per
barcode with the path namespaced by the barcode, or (plain) dispatch
plots once. -/
def mainTrace (ext : Ext) (mc : MainCfg) (datadf : Table) : List Event :=
  let path0 := pathJoin mc.outdir mc.filePre
  let statsfile := path0 ++ "NanoStats.txt"
  let df := (filter_data ext mc.fcfg datadf).1
  Event.writeStats statsfile [] ::
  Event.filterRun ::
  (if mc.barcoded then
    let barcodes := uniqueFirst (df.columnStr "barcode")
    Event.writeStats (path0 ++ "NanoStats_barcoded.txt") barcodes ::
    barcodes.map (fun b => Event.plotRun b (pathJoin mc.outdir (mc.filePre ++ b ++ "_")))
  else
    [Event.plotRun "" path0])

/-- HTML fragment for a multi-column statistics line (lines 457-459). -/
def dataRow (linesplit : List String) : String :=
  "<tr>\n\t" ++ String.join (linesplit.map (fun e => "<td>" ++ e ++ "</td>")) ++ "\n</tr>"

/-- HTML fragment for a single-column statistics line, rendered as a
full-width bold header row (lines 460-462). -/
def headerRow (line : String) : String :=
  "\n<tr></tr>\n<tr>\n\t<td colspan=\"2\"><b>" ++ line.trim ++ "</b></td>\n</tr>"

/-- HTML fragment for the sentinel line that starts with "Data"
(lines 453-456). -/
def sentinelRow (line : String) : String :=
  "\n<tr></tr>\n<tr>\n\t<td colspan=\"2\">" ++ line.trim ++ "</td>\n</tr>"

/-- HTML fragment for a line after the sentinel, rendered by the
passthrough loop (lines 463-465). -/
def tailRow (line : String) : String :=
  "\n<tr>\n\t<td colspan=\"2\">" ++ line.trim ++ "</td>\n</tr>"

/-- Shallow embedding of the statistics-table rendering of make_report
(NanoPlot.py lines 450-465): for each line the loop first appends an
empty fragment, then, if the line starts with "Data", renders it as a
full-width passthrough row and breaks, handing the remaining lines to the
passthrough loop; otherwise a tab-split line with more than one field
becomes a data row and a single-field line a full-width header row. -/
def statsRows : List String → List String
  | [] => []
  | line :: rest =>
    let linesplit := line.trim.splitOn "\t"
    if line.startsWith "Data" then
      "" :: sentinelRow line :: rest.map tailRow
    else if linesplit.length > 1 then
      "" :: dataRow linesplit :: statsRows rest
    else
      "" :: headerRow line :: statsRows rest

/-- Structured rendering rule of the specification: a tab-split line with
more than one field becomes a data row, a single-field line a full-width
header row. -/
def renderStruct (line : String) : String :=
  let linesplit := line.trim.splitOn "\t"
  if linesplit.length > 1 then dataRow linesplit else headerRow line

/-- Rendering of the statistics file as the specification words it:
structured parsing applies the data-row/header-row rule to every line
before the first line starting with the sentinel "Data"; parsing stops at
that line, which is rendered as a full-width passthrough row, and every
remaining line is rendered as a full-width passthrough row. -/
def statsRowsSpec (lines : List String) : List String :=
  let structured := lines.takeWhile (fun l => !l.startsWith "Data")
  let rest := lines.dropWhile (fun l => !l.startsWith "Data")
  (structured.map (fun l => ["", renderStruct l])).flatten ++
  (match rest with
   | [] => []
   | s :: tail => "" :: sentinelRow s :: tail.map tailRow)

/-! Concrete fixtures used to evaluate the embedding at explicit inputs. -/

/-- Trivial instantiation of the external collaborators. -/
def extId : Ext :=
  Ext.mk (fun _ t => t) (fun _ => Value.num 0) (fun _ _ => [])

/-- Instantiation of the external collaborators whose sampler picks the
indices 2 and 0. -/
def extSel : Ext :=
  Ext.mk (fun _ t => t) (fun _ => Value.num 0) (fun _ _ => [2, 0])

/-- Row with a length and an average quality. -/
def rowLQ (len q : ℚ) : Row :=
  [("lengths", Value.num len), ("quals", Value.num q)]

/-- Three-read table with qualities 4, 5 and 6. -/
def demoQuals : Table :=
  Table.mk ["lengths", "quals"] [rowLQ 100 4, rowLQ 200 5, rowLQ 300 6]

/-- Settings with every filter option unset. -/
def cfgNone : Settings :=
  Settings.mk false false false none none false none

/-- Settings enabling only the minimum-quality cutoff. -/
def minqualOnly (q : Int) : Settings :=
  Settings.mk false false false none (some q) false none

/-- Settings enabling only downsampling. -/
def downsampleOnly (n : Int) : Settings :=
  Settings.mk false false false none none false (some n)

/-! Theorems settling the claims. -/

set_option maxHeartbeats 1600000 in
/-- C4: filter_data applies its six optional steps in exactly the fixed
order length-column selection, outlier removal, max-length cutoff,
minimum-quality cutoff, log transform, downsampling, each step operating
on the output of the previous: the pipeline equals the composition of the
six step functions in that order. -/
theorem filter_data_step_order (ext : Ext) (cfg : Settings) (datadf : Table) :
    filter_data ext cfg datadf =
      finalizeF (stepDownsample ext cfg (stepLog ext cfg (stepMinQual cfg
        (stepMaxLength cfg (stepOutliers ext cfg (stepALength cfg (initF datadf))))))) := by
  cases h1 : cfg.alength && cfg.bam <;>
    cases h2 : cfg.drop_outliers <;>
      cases h3 : truthy cfg.maxlength <;>
        cases h4 : truthy cfg.minqual <;>
          cases h5 : cfg.loglength <;>
            cases h6 : truthy cfg.downsample <;>
              simp [filter_data, finalizeF, stepDownsample, stepLog, stepMinQual,
                stepMaxLength, stepOutliers, stepALength, initF, h1, h2, h3, h4, h5, h6]

/-- Auxiliary fact: with every filter option disabled the pipeline
returns the input table unchanged. -/
lemma filter_data_id (ext : Ext) (cfg : Settings) (datadf : Table)
    (h1 : cfg.alength = false) (h2 : cfg.drop_outliers = false)
    (h3 : truthy cfg.maxlength = false) (h4 : truthy cfg.minqual = false)
    (h5 : cfg.loglength = false) (h6 : truthy cfg.downsample = false) :
    (filter_data ext cfg datadf).1 = datadf := by
  unfold filter_data
  simp [h1, h2, h3, h4, h5, h6]

/-- C8: with alength, drop_outliers, maxlength, minqual, loglength and
downsample all unset or false, filter_data returns a table with the
identical row count and column set as the input, and running the pipeline
twice in this configuration equals running it once. -/
theorem filter_data_no_filters (ext : Ext) (cfg : Settings) (datadf : Table)
    (h1 : cfg.alength = false) (h2 : cfg.drop_outliers = false)
    (h3 : truthy cfg.maxlength = false) (h4 : truthy cfg.minqual = false)
    (h5 : cfg.loglength = false) (h6 : truthy cfg.downsample = false) :
    (filter_data ext cfg datadf).1.rows.length = datadf.rows.length
    ∧ (filter_data ext cfg datadf).1.cols = datadf.cols
    ∧ (filter_data ext cfg (filter_data ext cfg datadf).1).1
        = (filter_data ext cfg datadf).1 := by
  have h := filter_data_id ext cfg datadf h1 h2 h3 h4 h5 h6
  refine ⟨by rw [h], by rw [h], ?_⟩
  rw [h]
  exact filter_data_id ext cfg datadf h1 h2 h3 h4 h5 h6

/-- Witness for C8 at the three-read table with every option unset. -/
theorem filter_data_no_filters_witness :
    (cfgNone.alength = false ∧ cfgNone.drop_outliers = false
      ∧ truthy cfgNone.maxlength = false ∧ truthy cfgNone.minqual = false
      ∧ cfgNone.loglength = false ∧ truthy cfgNone.downsample = false)
    ∧ ((filter_data extId cfgNone demoQuals).1.rows.length = demoQuals.rows.length
       ∧ (filter_data extId cfgNone demoQuals).1.cols = demoQuals.cols
       ∧ (filter_data extId cfgNone (filter_data extId cfgNone demoQuals).1).1
           = (filter_data extId cfgNone demoQuals).1) :=
  ⟨⟨rfl, rfl, rfl, rfl, rfl, rfl⟩,
   filter_data_no_filters extId cfgNone demoQuals rfl rfl rfl rfl rfl rfl⟩

/-- C10: passing 0 as the value of maxlength, minqual or downsample
disables that filter step entirely — each step is guarded by Python
truthiness, so 0 behaves the same as unset; in particular downsample=0
leaves the table unchanged rather than emptying it. -/
theorem filter_data_zero_disables (ext : Ext) (cfg : Settings) (datadf : Table) :
    filter_data ext { cfg with maxlength := some 0 } datadf
        = filter_data ext { cfg with maxlength := none } datadf
    ∧ filter_data ext { cfg with minqual := some 0 } datadf
        = filter_data ext { cfg with minqual := none } datadf
    ∧ filter_data ext { cfg with downsample := some 0 } datadf
        = filter_data ext { cfg with downsample := none } datadf
    ∧ (filter_data ext (downsampleOnly 0) datadf).1 = datadf := by
  refine ⟨?_, ?_, ?_, ?_⟩
  · unfold filter_data
    simp [truthy]
  · unfold filter_data
    simp [truthy]
  · unfold filter_data
    simp [truthy]
  · exact filter_data_id ext (downsampleOnly 0) datadf rfl rfl rfl rfl rfl rfl

/-- Settings enabling outlier removal, max-length 5000 and log transform. -/
def cfgOML : Settings :=
  Settings.mk false false true (some 5000) none true none

/-- Settings enabling outlier removal, max-length 5000, minimum quality 5
and log transform. -/
def cfgOMLq : Settings :=
  Settings.mk false false true (some 5000) (some 5) true none

/-- C5 counterexample: the outlier/max-length/log example tag is exactly
OutliersRemoved_MaxLength-5000_Log_, but additionally enabling the
minimum-quality step — which is applied, its option being truthy — leaves
the tag unchanged, so it is false that every applied step contributes a
token and false that enabling any further filter step changes the tag. -/
theorem lengthPre_minqual_no_token :
    (filter_data extId cfgOML demoQuals).2.lengthPre
        = "OutliersRemoved_MaxLength-5000_Log_"
    ∧ truthy cfgOMLq.minqual = true
    ∧ (filter_data extId cfgOMLq demoQuals).2.lengthPre
        = (filter_data extId cfgOML demoQuals).2.lengthPre := by
  refine ⟨rfl, rfl, rfl⟩

set_option maxHeartbeats 1600000 in
/-- C5 amended: the filename tag computed by filter_data is the
concatenation, in step order, of one fixed token per applied
token-contributing step — aligned-length selection, outlier removal,
max-length, log transform, downsampling — while the minimum-quality step
contributes no token, so the tag is invariant under the minqual option. -/
theorem lengthPre_tokens (ext : Ext) (cfg : Settings) (datadf : Table) :
    (filter_data ext cfg datadf).2.lengthPre =
      String.join
        ((if cfg.alength && cfg.bam then ["Aligned_"] else [])
         ++ (if cfg.drop_outliers then ["OutliersRemoved_"] else [])
         ++ (if truthy cfg.maxlength then
               ["MaxLength-" ++ toString (cfg.maxlength.getD 0) ++ "_"] else [])
         ++ (if cfg.loglength then ["Log_"] else [])
         ++ (if truthy cfg.downsample then ["Downsampled_"] else []))
    ∧ ∀ q : Option Int,
        (filter_data ext { cfg with minqual := q } datadf).2.lengthPre
          = (filter_data ext cfg datadf).2.lengthPre := by
  constructor
  · cases h1 : cfg.alength && cfg.bam <;>
      cases h2 : cfg.drop_outliers <;>
        cases h3 : truthy cfg.maxlength <;>
          cases h5 : cfg.loglength <;>
            cases h6 : truthy cfg.downsample <;>
              simp [filter_data, h1, h2, h3, h5, h6]
  · intro q
    cases h1 : cfg.alength && cfg.bam <;>
      cases h2 : cfg.drop_outliers <;>
        cases h3 : truthy cfg.maxlength <;>
          cases h5 : cfg.loglength <;>
            cases h6 : truthy cfg.downsample <;>
              simp [filter_data, h1, h2, h3, h5, h6]

/-- C6: with minqual set to a nonzero threshold, filter_data keeps exactly
the rows whose quals is strictly greater than the threshold; a row whose
quals equals the threshold is dropped, and a table all of whose rows have
quals at or below the threshold becomes empty. -/
theorem filter_data_minqual (ext : Ext) (q : Int) (datadf : Table) (hq : q ≠ 0) :
    (filter_data ext (minqualOnly q) datadf).1.rows
      = datadf.rows.filter
          (fun r => (rowGetNum r "quals").any (fun v => decide ((q : ℚ) < v)))
    ∧ (∀ r ∈ datadf.rows, rowGetNum r "quals" = some ((q : Int) : ℚ) →
        r ∉ (filter_data ext (minqualOnly q) datadf).1.rows)
    ∧ ((∀ r ∈ datadf.rows, ∃ v, rowGetNum r "quals" = some v ∧ v ≤ (q : ℚ)) →
        (filter_data ext (minqualOnly q) datadf).1.rows = []) := by
  have hrows : (filter_data ext (minqualOnly q) datadf).1.rows
      = datadf.rows.filter
          (fun r => (rowGetNum r "quals").any (fun v => decide ((q : ℚ) < v))) := by
    unfold filter_data minqualOnly
    simp [truthy, hq]
  refine ⟨hrows, ?_, ?_⟩
  · intro r hr heq hmem
    rw [hrows] at hmem
    have h2 := (List.mem_filter.mp hmem).2
    rw [heq] at h2
    simp [Option.any] at h2
  · intro hall
    rw [hrows]
    rw [List.filter_eq_nil_iff]
    intro r hr
    obtain ⟨v, hv, hle⟩ := hall r hr
    rw [hv]
    simp [Option.any]
    exact hle

/-- Witness for C6: threshold 5 on the three-read table with qualities
4, 5 and 6 keeps only the quality-6 read; the quality-5 boundary read is
dropped. -/
theorem filter_data_minqual_witness :
    (5 : Int) ≠ 0
    ∧ ((filter_data extId (minqualOnly 5) demoQuals).1.rows
        = demoQuals.rows.filter
            (fun r => (rowGetNum r "quals").any (fun v => decide (((5 : Int) : ℚ) < v)))
       ∧ (∀ r ∈ demoQuals.rows, rowGetNum r "quals" = some (((5 : Int) : Int) : ℚ) →
           r ∉ (filter_data extId (minqualOnly 5) demoQuals).1.rows)
       ∧ ((∀ r ∈ demoQuals.rows, ∃ v, rowGetNum r "quals" = some v ∧ v ≤ ((5 : Int) : ℚ)) →
           (filter_data extId (minqualOnly 5) demoQuals).1.rows = [])) :=
  ⟨by decide, filter_data_minqual extId 5 demoQuals (by decide)⟩

/-- Selecting the rows at a list of in-bounds indices is the pmap of list
indexing over those indices. -/
lemma selectIdx_pmap {α : Type} (l : List α) :
    ∀ (sel : List Nat) (h : ∀ i ∈ sel, i < l.length),
      sel.filterMap (fun i => l[i]?) = sel.pmap (fun i hi => l[i]) h
  | [], _ => rfl
  | i :: rest, h => by
    have hi : i < l.length := h i (by simp)
    have ht := selectIdx_pmap l rest (fun j hj => h j (by simp [hj]))
    simp [List.pmap, List.filterMap_cons, List.getElem?_eq_getElem hi, ht]

/-- Selecting rows at a duplicate-free list of in-bounds indices yields a
subpermutation of the row list. -/
lemma selectIdx_subperm {α : Type} (l : List α) (sel : List Nat)
    (hnd : sel.Nodup) (h : ∀ i ∈ sel, i < l.length) :
    List.Subperm (sel.filterMap (fun i => l[i]?)) l := by
  rw [selectIdx_pmap l sel h]
  have hfin : sel.pmap (fun i hi => l[i]) h
      = (sel.pmap (fun i hi => (⟨i, hi⟩ : Fin l.length)) h).map l.get := by
    simp [List.map_pmap, List.get_eq_getElem]
  rw [hfin]
  have h3 : (sel.pmap (fun i hi => (⟨i, hi⟩ : Fin l.length)) h).Nodup :=
    List.Nodup.pmap (fun a ha b hb hab => congrArg Fin.val hab) hnd
  have h4 : (sel.pmap (fun i hi => (⟨i, hi⟩ : Fin l.length)) h) ⊆ List.finRange l.length :=
    fun x _ => List.mem_finRange x
  obtain ⟨u, hu1, hu2⟩ := List.Nodup.subperm h3 h4
  refine ⟨u.map l.get, hu1.map l.get, ?_⟩
  have h6 := hu2.map l.get
  rwa [List.finRange_map_get] at h6

/-- Selecting rows at in-bounds indices keeps one row per index. -/
lemma selectIdx_length {α : Type} (l : List α) (sel : List Nat)
    (h : ∀ i ∈ sel, i < l.length) :
    (sel.filterMap (fun i => l[i]?)).length = sel.length := by
  rw [selectIdx_pmap l sel h, List.length_pmap]

/-- Every selected row is a row of the original list. -/
lemma selectIdx_mem {α : Type} (l : List α) (sel : List Nat) (r : α)
    (hr : r ∈ sel.filterMap (fun i => l[i]?)) : r ∈ l := by
  obtain ⟨i, _, hi⟩ := List.mem_filterMap.mp hr
  exact List.getElem?_mem hi

/-- C7: when downsampling to a nonzero n is requested and the sampler
behaves as pandas DataFrame.sample does — a duplicate-free list of
min(n, R) in-bounds row indices, R being the available row count — the
table returned by filter_data has exactly min(n, R) rows, every retained
row is one of the original rows, and no original row is used more often
than it occurs in the input (sampling without replacement). -/
theorem filter_data_downsample (ext : Ext) (n : Int) (datadf : Table)
    (hn : n ≠ 0)
    (hnd : (ext.sampleSel (min n (datadf.rows.length : Int)) datadf.rows.length).Nodup)
    (hvalid : ∀ i ∈ ext.sampleSel (min n (datadf.rows.length : Int)) datadf.rows.length,
        i < datadf.rows.length)
    (hlen : (ext.sampleSel (min n (datadf.rows.length : Int)) datadf.rows.length).length
        = (min n (datadf.rows.length : Int)).toNat) :
    (filter_data ext (downsampleOnly n) datadf).1.rows.length
        = (min n (datadf.rows.length : Int)).toNat
    ∧ (∀ r ∈ (filter_data ext (downsampleOnly n) datadf).1.rows, r ∈ datadf.rows)
    ∧ List.Subperm (filter_data ext (downsampleOnly n) datadf).1.rows datadf.rows := by
  have hrows : (filter_data ext (downsampleOnly n) datadf).1.rows
      = (ext.sampleSel (min n (datadf.rows.length : Int)) datadf.rows.length).filterMap
          (fun i => datadf.rows[i]?) := by
    unfold filter_data downsampleOnly
    simp [truthy, hn]
  refine ⟨?_, ?_, ?_⟩
  · rw [hrows, selectIdx_length _ _ hvalid, hlen]
  · intro r hr
    rw [hrows] at hr
    exact selectIdx_mem _ _ _ hr
  · rw [hrows]
    exact selectIdx_subperm _ _ hnd hvalid

/-- Witness for C7: downsampling the three-read table to 2 with the
sampler that picks indices 2 and 0. -/
theorem filter_data_downsample_witness :
    (2 : Int) ≠ 0
    ∧ (extSel.sampleSel (min 2 (demoQuals.rows.length : Int)) demoQuals.rows.length).Nodup
    ∧ (∀ i ∈ extSel.sampleSel (min 2 (demoQuals.rows.length : Int)) demoQuals.rows.length,
        i < demoQuals.rows.length)
    ∧ (extSel.sampleSel (min 2 (demoQuals.rows.length : Int)) demoQuals.rows.length).length
        = (min 2 (demoQuals.rows.length : Int)).toNat
    ∧ ((filter_data extSel (downsampleOnly 2) demoQuals).1.rows.length
          = (min 2 (demoQuals.rows.length : Int)).toNat
       ∧ (∀ r ∈ (filter_data extSel (downsampleOnly 2) demoQuals).1.rows, r ∈ demoQuals.rows)
       ∧ List.Subperm (filter_data extSel (downsampleOnly 2) demoQuals).1.rows demoQuals.rows) :=
  ⟨by decide, by decide, by decide, by decide,
   filter_data_downsample extSel 2 demoQuals (by decide) (by decide) (by decide) (by decide)⟩

/-- C9: the statistics-table rendering of make_report agrees with the
specification reading line by line — a tab-split line with more than one
field becomes a data row and a single-field line a full-width header row,
structured parsing stops at the first line starting with the sentinel
"Data", that line is rendered as a full-width passthrough row, and every
remaining line is rendered as a full-width passthrough row. -/
theorem statsRows_spec_eq (lines : List String) : statsRows lines = statsRowsSpec lines := by
  induction lines with
  | nil => rfl
  | cons line rest ih =>
    by_cases h : line.startsWith "Data"
    · simp [statsRows, statsRowsSpec, h]
    · by_cases h2 : (line.trim.splitOn "\t").length > 1
      · simp [statsRows, statsRowsSpec, renderStruct, h, h2, ih]
      · simp [statsRows, statsRowsSpec, renderStruct, h, h2, ih]

/-- Plot settings fixture used to evaluate the dispatcher. -/
def psDemo : PlotSettings := PlotSettings.mk "out/" "lengths" false ""

/-- Single-read table whose columns include mapQ (correctly spelled). -/
def tblMapQ : Table :=
  Table.mk ["lengths", "quals", "mapQ"]
    [[("lengths", Value.num 100), ("quals", Value.num 10), ("mapQ", Value.num 60)]]

/-- Single-read table whose columns include the misspelling maqpQ. -/
def tblMaqpQ : Table :=
  Table.mk ["lengths", "quals", "maqpQ"]
    [[("lengths", Value.num 100), ("quals", Value.num 10), ("maqpQ", Value.num 60)]]

/-- C1 (code bug): for a table in which column mapQ is present the
dispatcher produces no mapQ scatter at all, because line 361 of the
source tests membership of the misspelled column name "maqpQ"; a table
containing a column literally named "maqpQ" does trigger the two
scatters, whose branch body reads column "mapQ" — which shows the
condition is a slip and the claimed two-scatter behaviour the intent. -/
theorem make_plots_mapq_typo :
    tblMapQ.cols.contains "mapQ" = true
    ∧ (make_plots tblMapQ psDemo).filter isMapqScatter = []
    ∧ (make_plots tblMaqpQ psDemo).filter isMapqScatter
        = [PlotCall.scatter "mapQ" "quals" "out/MappingQualityvsAverageBaseQuality" false,
           PlotCall.scatter "lengths" "mapQ" "out/MappingQualityvsReadLength" false] := by
  refine ⟨rfl, rfl, rfl⟩

/-- Single-read table with columns lengths, quals and channelIDs. -/
def tblQualsChan : Table :=
  Table.mk ["lengths", "quals", "channelIDs"]
    [[("lengths", Value.num 100), ("quals", Value.num 10), ("channelIDs", Value.num 1)]]

/-- Renderer that raises on every scatter call and succeeds on every
other call, returning the output path of the produced artifact. -/
def renderFailScatter : PlotCall → Except String (List String)
  | PlotCall.scatter _ _ _ _ => Except.error "scatter failed"
  | PlotCall.lengthPlots p => Except.ok [p]
  | PlotCall.spatialHeatmap p => Except.ok [p]
  | PlotCall.timePlots p => Except.ok [p]

/-- C2 counterexample: on a table where both the quals scatter row and the
channel heatmap row are applicable, an exception raised while producing
the scatter makes the whole dispatcher raise — the result is an error
carrying no artifacts, so the heatmap artifact of the other applicable
row is not yielded, contradicting plot independence. -/
theorem make_plots_not_independent :
    PlotCall.spatialHeatmap "out/ActivityMap_ReadsPerChannel" ∈ make_plots tblQualsChan psDemo
    ∧ make_plotsE renderFailScatter tblQualsChan psDemo = Except.error "scatter failed" := by
  refine ⟨by decide, rfl⟩

/-- Sequential short-circuiting execution errors as soon as any rendered
call in the list errors. -/
lemma runCalls_error_of_mem (render : PlotCall → Except String (List String))
    (calls : List PlotCall) (c : PlotCall) (hc : c ∈ calls) (e : String)
    (he : render c = Except.error e) :
    ∃ e2, runCalls render calls = Except.error e2 := by
  induction calls with
  | nil => cases hc
  | cons d rest ih =>
    rcases List.mem_cons.mp hc with h | h
    · subst h
      refine ⟨e, ?_⟩
      simp [runCalls, he]
    · cases hd : render d with
      | error e3 =>
        refine ⟨e3, ?_⟩
        simp [runCalls, hd]
      | ok arts =>
        obtain ⟨e2, h2⟩ := ih h
        refine ⟨e2, ?_⟩
        simp [runCalls, hd, h2]

/-- C2 amended: plots are not independently guarded — an exception raised
while producing any one applicable artifact aborts make_plots, so no
artifact list is returned at all; only the absence of a column merely
skips its dispatch row. -/
theorem make_plotsE_aborts (render : PlotCall → Except String (List String))
    (datadf : Table) (s : PlotSettings) (c : PlotCall) (e : String)
    (hc : c ∈ make_plots datadf s) (he : render c = Except.error e) :
    ∃ e2, make_plotsE render datadf s = Except.error e2 :=
  runCalls_error_of_mem render (make_plots datadf s) c hc e he

/-- Witness for C2 amended at the quals/channelIDs table with the
scatter-failing renderer. -/
theorem make_plotsE_aborts_witness :
    PlotCall.scatter "lengths" "quals" "out/LengthvsQualityScatterPlot" false
        ∈ make_plots tblQualsChan psDemo
    ∧ renderFailScatter
        (PlotCall.scatter "lengths" "quals" "out/LengthvsQualityScatterPlot" false)
        = Except.error "scatter failed"
    ∧ ∃ e2, make_plotsE renderFailScatter tblQualsChan psDemo = Except.error e2 :=
  ⟨by decide, rfl,
   make_plotsE_aborts renderFailScatter tblQualsChan psDemo
     (PlotCall.scatter "lengths" "quals" "out/LengthvsQualityScatterPlot" false)
     "scatter failed" (by decide) rfl⟩

/-- Three-read table carrying two distinct barcode values. -/
def tblBar : Table :=
  Table.mk ["lengths", "barcode"]
    [[("lengths", Value.num 100), ("barcode", Value.str "BC01")],
     [("lengths", Value.num 200), ("barcode", Value.str "BC02")],
     [("lengths", Value.num 300), ("barcode", Value.str "BC01")]]

/-- Main options fixture: barcode splitting requested, no filters. -/
def mcDemo : MainCfg := MainCfg.mk "outdir" "pre" true cfgNone

/-- C3 counterexample: on a barcoded run over a table with two distinct
barcodes, the post-load control flow of main invokes the filter pipeline
exactly once — on the full table, before splitting — not once per
barcode as claimed. -/
theorem mainTrace_filter_once :
    (uniqueFirst (((filter_data extId mcDemo.fcfg tblBar).1).columnStr "barcode")).length = 2
    ∧ (mainTrace extId mcDemo tblBar).count Event.filterRun = 1 := by
  refine ⟨rfl, rfl⟩

/-- C3 amended: on a barcoded run the table is loaded and filtered once;
only the plot dispatch repeats, once per distinct barcode of the filtered
table, with the output path namespaced by the barcode, and the aggregate
per-barcode statistics file is written before any per-barcode plotting
begins. -/
theorem mainTrace_barcoded (ext : Ext) (mc : MainCfg) (datadf : Table)
    (hb : mc.barcoded = true) :
    (mainTrace ext mc datadf).count Event.filterRun = 1
    ∧ mainTrace ext mc datadf =
        [Event.writeStats (pathJoin mc.outdir mc.filePre ++ "NanoStats.txt") [],
         Event.filterRun,
         Event.writeStats (pathJoin mc.outdir mc.filePre ++ "NanoStats_barcoded.txt")
           (uniqueFirst (((filter_data ext mc.fcfg datadf).1).columnStr "barcode"))]
        ++ (uniqueFirst (((filter_data ext mc.fcfg datadf).1).columnStr "barcode")).map
             (fun b => Event.plotRun b (pathJoin mc.outdir (mc.filePre ++ b ++ "_"))) := by
  have htr : mainTrace ext mc datadf =
      [Event.writeStats (pathJoin mc.outdir mc.filePre ++ "NanoStats.txt") [],
       Event.filterRun,
       Event.writeStats (pathJoin mc.outdir mc.filePre ++ "NanoStats_barcoded.txt")
         (uniqueFirst (((filter_data ext mc.fcfg datadf).1).columnStr "barcode"))]
      ++ (uniqueFirst (((filter_data ext mc.fcfg datadf).1).columnStr "barcode")).map
           (fun b => Event.plotRun b (pathJoin mc.outdir (mc.filePre ++ b ++ "_"))) := by
    unfold mainTrace
    rw [hb]
    simp
  refine ⟨?_, htr⟩
  rw [htr]
  have hz : ((uniqueFirst (((filter_data ext mc.fcfg datadf).1).columnStr "barcode")).map
      (fun b => Event.plotRun b (pathJoin mc.outdir (mc.filePre ++ b ++ "_")))).count
        Event.filterRun = 0 := by
    rw [List.count_eq_zero]
    intro hmem
    obtain ⟨b, _, hb2⟩ := List.mem_map.mp hmem
    cases hb2
  rw [List.count_append, hz]
  rw [List.count_cons_of_ne (by intro h; cases h)]
  rw [List.count_cons_self]
  rw [List.count_cons_of_ne (by intro h; cases h)]
  rfl

/-- Witness for C3 amended at the two-barcode table. -/
theorem mainTrace_barcoded_witness :
    mcDemo.barcoded = true
    ∧ ((mainTrace extId mcDemo tblBar).count Event.filterRun = 1
       ∧ mainTrace extId mcDemo tblBar =
           [Event.writeStats (pathJoin mcDemo.outdir mcDemo.filePre ++ "NanoStats.txt") [],
            Event.filterRun,
            Event.writeStats (pathJoin mcDemo.outdir mcDemo.filePre ++ "NanoStats_barcoded.txt")
              (uniqueFirst (((filter_data extId mcDemo.fcfg tblBar).1).columnStr "barcode"))]
           ++ (uniqueFirst (((filter_data extId mcDemo.fcfg tblBar).1).columnStr "barcode")).map
                (fun b => Event.plotRun b (pathJoin mcDemo.outdir (mcDemo.filePre ++ b ++ "_")))) :=
  ⟨rfl, mainTrace_barcoded extId mcDemo tblBar rfl⟩

end NanoPlot
